import Mathlib

/-!
Shallow Lean embedding of the core of the code-assistant-app repository:
the issue extractor and classifier, the LLM transport clients, the file
service, the analysis store, and the per-directory analysis orchestrator,
together with theorems about the embedded functions.

Python `str` values are modelled as Lean `String`.  Text operations
(`strip`, `lower`, `split`, substring tests, and the concrete regular
expressions used by the analyzer) are implemented explicitly over
`List Char`, mirroring CPython semantics for the ASCII inputs the
analyzer processes.  I/O outcomes (HTTP requests, `os.stat`, file reads,
LLM responses) are passed in as explicit values of `Except`/function
type, so a raised exception is an `.error` value.
-/

namespace CodeAssistant

/-- Python whitespace for `str.strip` and the regex class `\s`
(space, tab, newline, carriage return, vertical tab, form feed). -/
def pyIsSpace (c : Char) : Bool :=
  c = ' ' || c = '\t' || c = '\n' || c = '\r' || c = '\x0b' || c = '\x0c'

def pyStripL (l : List Char) : List Char :=
  ((l.dropWhile pyIsSpace).reverse.dropWhile pyIsSpace).reverse

/-- Python str.strip() with no arguments. -/
def pyStrip (s : String) : String := ⟨pyStripL s.data⟩

/-- Python str.lower() restricted to ASCII (the analyzer compares ASCII keywords). -/
def pyLower (s : String) : String := ⟨s.data.map Char.toLower⟩

/-- Python str.startswith, implemented structurally over character lists. -/
def pyStartsWith (s pre : String) : Bool := pre.data.isPrefixOf s.data

def digitChar : Nat → Char
  | 0 => '0'
  | 1 => '1'
  | 2 => '2'
  | 3 => '3'
  | 4 => '4'
  | 5 => '5'
  | 6 => '6'
  | 7 => '7'
  | 8 => '8'
  | 9 => '9'
  | _ => '*'

def natToStringAux : Nat → Nat → List Char
  | 0, _ => []
  | fuel + 1, n => if n < 10 then [digitChar n] else natToStringAux fuel (n / 10) ++ [digitChar (n % 10)]

/-- Decimal rendering of a natural number (Python str of an int). -/
def natToString (n : Nat) : String := ⟨natToStringAux (n + 1) n⟩

/-- Python substring test `needle in hay` over character lists. -/
def containsSubL (needle : List Char) : List Char → Bool
  | [] => needle.isEmpty
  | c :: t => needle.isPrefixOf (c :: t) || containsSubL needle t

def containsSub (hay needle : String) : Bool := containsSubL needle.data hay.data

/-- Python s.split (on a single newline) over character lists. -/
def splitNlL : List Char → List (List Char)
  | [] => [[]]
  | c :: t =>
    if c = '\n' then [] :: splitNlL t
    else
      match splitNlL t with
      | h :: r => (c :: h) :: r
      | [] => [[c]]

def splitNl (s : String) : List String := (splitNlL s.data).map (fun l => ⟨l⟩)

def joinNl (ls : List String) : String := String.intercalate "\n" ls

/-- Python str.splitlines() for newline-separated text: like split, but a
trailing newline does not produce a final empty piece, and the empty string
gives no lines at all. -/
def pySplitlines (s : String) : List String :=
  if s = "" then []
  else if s.data.getLast? = some '\n' then (splitNl s).dropLast
  else splitNl s

/-! ### Regex matchers of CodeAnalyzer._extract_issues

The five patterns of code_analyzer.py lines 377-386 are hand-compiled.
Each `match...At` function attempts a match anchored at the given
position and returns the captured groups plus the remaining text after
the match; `scanFuel` reproduces re.finditer's left-to-right
non-overlapping scan (with re.MULTILINE line anchoring for the
`^`-anchored list-item patterns). -/

/-- Tail fragment `\s*(.+?)(?:\n|$)` (re.MULTILINE) shared by all five issue
patterns: skip whitespace (including newlines), then capture up to the end of
the line, consuming a terminating newline.  When only whitespace remains the
backtracking engine degenerates to capturing the last non-newline whitespace
character (which strips to nothing and is filtered out downstream). -/
def captureTail (s : List Char) : Option (List Char × List Char) :=
  let s1 := s.dropWhile pyIsSpace
  match s1 with
  | _ :: _ =>
    let grp := s1.takeWhile (fun c => c ≠ '\n')
    let s2 := s1.dropWhile (fun c => c ≠ '\n')
    match s2 with
    | '\n' :: t => some (grp, t)
    | _ => some (grp, [])
  | [] =>
    let rev := s.reverse
    let nlRun := rev.takeWhile (fun c => c = '\n')
    match rev.dropWhile (fun c => c = '\n') with
    | [] => none
    | c :: _ => some ([c], nlRun.drop 1)

def issueKeywords : List (List Char) :=
  ["Issue".data, "Problem".data, "Bug".data, "Error".data, "Warning".data,
   "Security".data, "Performance".data]

/-- Fragment `\s+\#?\d*\s*:` after an issue keyword. -/
def matchHashNumColon (s : List Char) : Option (List Char) :=
  let ws := s.takeWhile pyIsSpace
  let s1 := s.dropWhile pyIsSpace
  if ws.isEmpty then none
  else
    let s2 := match s1 with
      | '#' :: t => t
      | _ => s1
    let s3 := s2.dropWhile Char.isDigit
    let s4 := s3.dropWhile pyIsSpace
    match s4 with
    | ':' :: t => some t
    | _ => none

/-- Pattern `(?:Issue|Problem|Bug|Error|Warning|Security|Performance)\s+\#?\d*\s*:\s*(.+?)(?:\n|$)`. -/
def matchP1At (s : List Char) : Option (List Char × List Char) :=
  issueKeywords.findSome? fun kw =>
    if kw.isPrefixOf s then (matchHashNumColon (s.drop kw.length)).bind captureTail
    else none

/-- Continuation `\s+(\d+(?:-\d+)?)\s*:\s*(.+?)(?:\n|$)` after Line/Lines. -/
def matchLineNumCont (t : List Char) : Option ((List Char × List Char) × List Char) :=
  let ws := t.takeWhile pyIsSpace
  let t1 := t.dropWhile pyIsSpace
  if ws.isEmpty then none
  else
    let d1 := t1.takeWhile Char.isDigit
    let t2 := t1.dropWhile Char.isDigit
    if d1.isEmpty then none
    else
      let numAndRest : List Char × List Char :=
        match t2 with
        | '-' :: u =>
          let d2 := u.takeWhile Char.isDigit
          if d2.isEmpty then (d1, t2) else (d1 ++ '-' :: d2, u.dropWhile Char.isDigit)
        | _ => (d1, t2)
      let t4 := numAndRest.2.dropWhile pyIsSpace
      match t4 with
      | ':' :: t5 => (captureTail t5).map (fun p => ((numAndRest.1, p.1), p.2))
      | _ => none

/-- Pattern `(?:Line|Lines)\s+(\d+(?:-\d+)?)\s*:\s*(.+?)(?:\n|$)`. -/
def matchP2At (s : List Char) : Option ((List Char × List Char) × List Char) :=
  if "Line".data.isPrefixOf s then
    match matchLineNumCont (s.drop 4) with
    | some r => some r
    | none => if "Lines".data.isPrefixOf s then matchLineNumCont (s.drop 5) else none
  else none

/-- Pattern `^\s*\d+\.\s*(.+?)(?:\n|$)` (numbered list item). -/
def matchP3At (s : List Char) : Option (List Char × List Char) :=
  let s1 := s.dropWhile pyIsSpace
  let d := s1.takeWhile Char.isDigit
  let s2 := s1.dropWhile Char.isDigit
  if d.isEmpty then none
  else
    match s2 with
    | '.' :: s3 => captureTail s3
    | _ => none

/-- Patterns `^\s*\*\s*(.+?)(?:\n|$)` and `^\s*-\s*(.+?)(?:\n|$)` (bullets). -/
def matchBulletAt (marker : Char) (s : List Char) : Option (List Char × List Char) :=
  let s1 := s.dropWhile pyIsSpace
  match s1 with
  | c :: s2 => if c = marker then captureTail s2 else none
  | [] => none

/-- re.finditer scan: left to right, non-overlapping, resuming after each
match; `anchored` restricts match starts to line starts (the `^` anchor under
re.MULTILINE).  Every successful match consumes at least one character, so a
fuel of the text length suffices. -/
def scanFuel (matchAt : List Char → Option (α × List Char)) (anchored : Bool) :
    Nat → List Char → Bool → List α
  | 0, _, _ => []
  | _ + 1, [], _ => []
  | fuel + 1, c :: t, atStart =>
    if !anchored || atStart then
      match matchAt (c :: t) with
      | some (a, rest) => a :: scanFuel matchAt anchored fuel rest true
      | none => scanFuel matchAt anchored fuel t (c = '\n')
    else scanFuel matchAt anchored fuel t (c = '\n')

def scanAll (matchAt : List Char → Option (α × List Char)) (anchored : Bool)
    (t : List Char) : List α :=
  scanFuel matchAt anchored t.length t true

/-- One candidate produced by a regex match: the optional line-number group
and the stripped description (code_analyzer.py lines 392-399). -/
structure Cand where
  line_number : Option String
  description : String
deriving DecidableEq, Repr

/-- All matches of the five issue patterns, in pattern order then text order
(the loop at code_analyzer.py lines 389-391). -/
def allCandidates (t : String) : List Cand :=
  let l := t.data
  ((scanAll matchP1At false l).map fun p => ⟨none, pyStrip ⟨p⟩⟩) ++
  ((scanAll matchP2At false l).map fun p => ⟨some (pyStrip ⟨p.1⟩), pyStrip ⟨p.2⟩⟩) ++
  ((scanAll matchP3At true l).map fun p => ⟨none, pyStrip ⟨p⟩⟩) ++
  ((scanAll (matchBulletAt '*') true l).map fun p => ⟨none, pyStrip ⟨p⟩⟩) ++
  ((scanAll (matchBulletAt '-') true l).map fun p => ⟨none, pyStrip ⟨p⟩⟩)

/-- One extracted issue record (the dicts built in _extract_issues). -/
structure IssueR where
  line_number : Option String
  description : String
  fixed : Bool
deriving DecidableEq, Repr

def positiveIndicators : List String :=
  ["good", "excellent", "well done", "clean", "clear", "appropriate", "nice"]

def negativeIndicators : List String :=
  ["but", "however", "improve", "issue", "problem", "fix", "consider"]

def hasPositive (descLower : String) : Bool :=
  positiveIndicators.any fun p => containsSub descLower p

def hasNegative (descLower : String) : Bool :=
  negativeIndicators.any fun n => containsSub descLower n

/-- Append an issue unless one with an identical description is already
present (code_analyzer.py lines 416-421 and 437-442). -/
def dedupAppend (issues : List IssueR) (i : IssueR) : List IssueR :=
  if issues.any (fun j => j.description == i.description) then issues else issues ++ [i]

/-- Loop body of the regex stage of _extract_issues (lines 392-421): length
and non-issue filter, positive-sentiment filter, then deduplicated append. -/
def stageAdd (issues : List IssueR) (c : Cand) : List IssueR :=
  if c.description.length < 10 || pyLower c.description == "none" ||
      pyLower c.description == "no issues found" then issues
  else if hasPositive (pyLower c.description) && !hasNegative (pyLower c.description) then
    issues
  else dedupAppend issues ⟨c.line_number, c.description, false⟩

def regexStage (t : String) : List IssueR := (allCandidates t).foldl stageAdd []

/-- Loop body of the loose-line stage (lines 426-442). -/
def looseAdd (issues : List IssueR) (line : String) : List IssueR :=
  if decide (20 < line.length) && !pyStartsWith line "#" && !pyStartsWith line "```" then
    if hasPositive (pyLower line) && !hasNegative (pyLower line) then issues
    else dedupAppend issues ⟨none, line, false⟩
  else issues

def strippedLines (t : String) : List String :=
  ((splitNl t).map pyStrip).filter (fun l => l ≠ "")

def looseStage (t : String) : List IssueR := (strippedLines t).foldl looseAdd []

def genericIssueDescription : String :=
  "Consider reviewing the code for potential improvements in readability and maintainability."

/-- Forced-minimum stage (lines 446-464): one synthesized issue from the
first long non-heading line, or the generic fallback. -/
def forcedStage (t : String) : List IssueR :=
  match (strippedLines t).find?
      (fun l => decide (30 < l.length) && !pyStartsWith l "#" && !pyStartsWith l "```") with
  | some line => [⟨none, "Potential improvement: " ++ line, false⟩]
  | none => [⟨none, genericIssueDescription, false⟩]

/-- Issues found by the regex stage plus, when it found nothing and the word
issue occurs in the text, the loose-line stage (lines 374-442). -/
def issuesBeforeForced (t : String) : List IssueR :=
  let issues1 := regexStage t
  if issues1.isEmpty && containsSub (pyLower t) "issue" then looseStage t else issues1

/-- CodeAnalyzer._extract_issues (code_analyzer.py lines 357-466). -/
def extract_issues (analysis_text : String) : List IssueR :=
  if analysis_text = "" then []
  else if pyStartsWith analysis_text "Error" then []
  else
    let issues2 := issuesBeforeForced analysis_text
    if issues2.isEmpty && decide (50 < (pyStrip analysis_text).length) then
      forcedStage analysis_text
    else issues2

/-! ### Severity and type classifier

EnhancedAnalyzer._structure_analysis_result, enhanced_analyzer.py lines
286-304: keyword scans with `re.search` over the lowercased issue title,
each keyword alternation delimited by word boundaries. -/

def isWordChar (c : Char) : Bool := c.isAlphanum || c = '_'

def boundaryOk (prev : Option Char) (rest : List Char) : Bool :=
  (match prev with
   | none => true
   | some c => !isWordChar c) &&
  (match rest with
   | [] => true
   | c :: _ => !isWordChar c)

/-- Occurrence of a keyword delimited by `\b` word boundaries, anywhere in
the text (re.search). -/
def wbSearchAux (kw : List Char) : Option Char → List Char → Bool
  | prev, [] => kw.isPrefixOf ([] : List Char) && boundaryOk prev []
  | prev, c :: t =>
    (kw.isPrefixOf (c :: t) && boundaryOk prev ((c :: t).drop kw.length)) ||
    wbSearchAux kw (some c) t

def wbContains (hay kw : String) : Bool := wbSearchAux kw.data none hay.data

def wbAny (hay : String) (kws : List String) : Bool := kws.any (wbContains hay)

def criticalSeverityKeywords : List String :=
  ["critical", "severe", "serious", "crash", "security", "exploit", "vulnerability"]

def majorSeverityKeywords : List String :=
  ["major", "important", "significant", "error", "bug"]

def minorSeverityKeywords : List String :=
  ["minor", "style", "formatting", "suggestion", "improvement"]

/-- Severity classification (enhanced_analyzer.py lines 286-293). -/
def severity_of_title (title : String) : String :=
  let t := pyLower title
  if wbAny t criticalSeverityKeywords then "critical"
  else if wbAny t majorSeverityKeywords then "major"
  else if wbAny t minorSeverityKeywords then "minor"
  else "minor"

def securityTypeKeywords : List String :=
  ["security", "vulnerability", "exploit", "injection", "xss"]

def performanceTypeKeywords : List String :=
  ["performance", "slow", "speed", "memory", "cpu", "efficient"]

def maintainabilityTypeKeywords : List String :=
  ["maintainability", "readability", "clarity", "documentation"]

def bugTypeKeywords : List String :=
  ["bug", "error", "exception", "crash", "incorrect"]

/-- Issue-type classification (enhanced_analyzer.py lines 295-304). -/
def type_of_title (title : String) : String :=
  let t := pyLower title
  if wbAny t securityTypeKeywords then "security"
  else if wbAny t performanceTypeKeywords then "performance"
  else if wbAny t maintainabilityTypeKeywords then "maintainability"
  else if wbAny t bugTypeKeywords then "bug"
  else "general"

/-- The (severity, type) pair assigned to an issue title. -/
def classify (title : String) : String × String :=
  (severity_of_title title, type_of_title title)

/-! ### File service -/

/-- FileService._check_balanced_delimiters (file_service.py lines 282-306):
stack-based matching of parentheses, brackets and braces. -/
def check_balanced_delimiters_go : List Char → List Char → Bool
  | stack, [] => stack.isEmpty
  | stack, c :: t =>
    if c = '(' || c = '[' || c = '\x7b' then check_balanced_delimiters_go (c :: stack) t
    else if c = ')' || c = ']' || c = '\x7d' then
      match stack with
      | [] => false
      | top :: rest =>
        let opener : Char := if c = ')' then '(' else if c = ']' then '[' else '\x7b'
        if top = opener then check_balanced_delimiters_go rest t else false
    else check_balanced_delimiters_go stack t

def check_balanced_delimiters (code : String) : Bool :=
  check_balanced_delimiters_go [] code.data

/-- FileService.validate_code (file_service.py lines 173-199).  The ast.parse
outcome for Python sources is the oracle pythonParses (False models a raised
SyntaxError, caught and turned into a False return).  For JavaScript and
TypeScript the function only returns True when the delimiter check passes and
otherwise falls off the end of the Python function, returning None — modelled
as Option Bool with none for None. -/
def validate_code (pythonParses : String → Bool) (code language : String) : Option Bool :=
  if language = "python" then some (pythonParses code)
  else if language = "javascript" ∨ language = "typescript" then
    (if check_balanced_delimiters code then some true else none)
  else some true

/-! ### Analysis records and the staleness check -/

/-- The slice of FileService.get_file_info consumed by the core: the recorded
modification time; none models the error-shaped dict that lacks the
last_modified key. -/
structure FileInfoR where
  last_modified : Option Nat
deriving DecidableEq, Repr

/-- Result record of CodeAnalyzer._analyze_file (code_analyzer.py lines
342-353).  The wall-clock analysis_timestamp string is supplied by the
environment and carried unchanged, so it is omitted here. -/
structure FileAnalysisR where
  file_path : String
  language : String
  file_info : Option FileInfoR
  issues : List IssueR
  issue_count : Nat
  standard_analysis : String
  security_analysis : Option String
  performance_analysis : Option String
  tokens_used : Nat
deriving DecidableEq, Repr

/-- existing_analysis.get("file_info", {}).get("last_modified", 0)
(file_service.py line 165). -/
def recordedLastModified (a : FileAnalysisR) : Nat :=
  (a.file_info.bind FileInfoR.last_modified).getD 0

/-- FileService.is_file_modified (file_service.py lines 143-171).  The
os.stat call is passed in as its outcome: the current mtime, or an .error for
a raised OSError (which the function catches, reporting the file modified). -/
def is_file_modified (statResult : Except String Nat) (existing : Option FileAnalysisR) : Bool :=
  match existing with
  | none => true
  | some a =>
    match statResult with
    | .error _ => true
    | .ok m => decide (recordedLastModified a < m)

/-! ### LLM transport clients -/

/-- Outcome of one requests.post attempt inside EnhancedLLMService._call_llm:
either the normalized (response-text, token-count) pair read from the JSON
body, or a raised RequestException. -/
inductive TransportOutcome where
  | ok (text : String) (tokens : Nat)
  | err (e : String)
deriving DecidableEq, Repr

/-- Retry loop of EnhancedLLMService._call_llm (enhanced_llm_service.py lines
380-413): while retries <= max_retries, attempt the request; on a
RequestException increment retries and, once retries exceeds max_retries,
give up with the "Error: ..." sentinel and zero tokens.  The transport is a
function of the attempt index; the result additionally counts the attempts
performed.  The exponential-backoff sleep does not affect the returned value
and is not modelled. -/
def call_llm_go (transport : Nat → TransportOutcome) (max_retries retries attempts : Nat) :
    (String × Nat) × Nat :=
  match transport attempts with
  | .ok text tokens => ((text, tokens), attempts + 1)
  | .err e =>
    if h : max_retries < retries + 1 then (("Error: " ++ e, 0), attempts + 1)
    else call_llm_go transport max_retries (retries + 1) (attempts + 1)
termination_by max_retries + 1 - retries
decreasing_by omega

def call_llm (transport : Nat → TransportOutcome) (max_retries : Nat) :
    (String × Nat) × Nat :=
  call_llm_go transport max_retries 0 0

/-- Outcome of one attempt inside LLMService._call_ollama: success with the
normalized text and token count, or one of the three caught exception kinds. -/
inductive OllamaOutcome where
  | ok (text : String) (tokens : Nat)
  | timeout
  | reqError (e : String)
  | unexpected (e : String)
deriving DecidableEq, Repr

/-- Retry loop of LLMService._call_ollama (llm_service.py lines 335-497):
`for attempt in range(max_retries)`, returning the degraded sentinel on the
final attempt's failure.  Returns none when the loop body never runs
(max_retries = 0, where the Python function would fall through returning
None); otherwise the result and the number of attempts performed. -/
def call_ollama_go (transport : Nat → OllamaOutcome) (max_retries attempt : Nat) :
    Option ((String × Nat) × Nat) :=
  if h : attempt < max_retries then
    match transport attempt with
    | .ok t k => some ((t, k), attempt + 1)
    | .timeout =>
      if attempt < max_retries - 1 then call_ollama_go transport max_retries (attempt + 1)
      else some (("Request timed out after " ++ natToString max_retries ++
        " attempts. Please try again later.", 0), attempt + 1)
    | .reqError e =>
      if attempt < max_retries - 1 then call_ollama_go transport max_retries (attempt + 1)
      else some (("Error calling LLM API after " ++ natToString max_retries ++
        " attempts: " ++ e, 0), attempt + 1)
    | .unexpected e =>
      if attempt < max_retries - 1 then call_ollama_go transport max_retries (attempt + 1)
      else some (("Unexpected error after " ++ natToString max_retries ++
        " attempts: " ++ e, 0), attempt + 1)
  else none
termination_by max_retries - attempt
decreasing_by all_goals omega

def call_ollama (transport : Nat → OllamaOutcome) (max_retries : Nat) :
    Option ((String × Nat) × Nat) :=
  call_ollama_go transport max_retries 0

/-! ### Analysis orchestrator

CodeAnalyzer.analyze_directory (code_analyzer.py lines 41-222) and
_analyze_file (lines 268-355), with all I/O and LLM outcomes supplied by an
environment record.  Backend LLM calls are additionally traced as a list of
BackendCall tags, recording that (and with what arguments) a call was
issued. -/

/-- One recommendation record (code_analyzer.py lines 584-588). -/
structure RecR where
  title : String
  description : String
  implemented : Bool
deriving DecidableEq, Repr

/-- Separator pattern of re.split for growth recommendations:
`\n\s*\d+\.\s+` (code_analyzer.py line 573).  Returns the remaining text
after a separator anchored at the given position. -/
def growthSepAt : List Char → Option (List Char)
  | '\n' :: t =>
    let t1 := t.dropWhile pyIsSpace
    let d := t1.takeWhile Char.isDigit
    let t2 := t1.dropWhile Char.isDigit
    if d.isEmpty then none
    else
      match t2 with
      | '.' :: t3 =>
        let w := t3.takeWhile pyIsSpace
        if w.isEmpty then none else some (t3.dropWhile pyIsSpace)
      | _ => none
  | _ => none

def growthSplitFuel : Nat → List Char → List Char → List (List Char)
  | 0, acc, _ => [acc.reverse]
  | _ + 1, acc, [] => [acc.reverse]
  | fuel + 1, acc, c :: t =>
    match growthSepAt (c :: t) with
    | some rest => acc.reverse :: growthSplitFuel fuel [] rest
    | none => growthSplitFuel fuel (c :: acc) t

/-- re.split of the growth-recommendation text on the numbered-item separator. -/
def growthSplit (s : String) : List String :=
  (growthSplitFuel s.data.length [] s.data).map (fun l => ⟨l⟩)

/-- Parsing of growth-recommendation text into records (code_analyzer.py
lines 569-590): split on the numbered-item separator, re-prefix the numbered
sections, then take each section's first line as title and the rest as
description. -/
def parseGrowthRecommendations (text : String) : List RecR :=
  let sections := growthSplit text
  let sections :=
    if 1 < sections.length then
      match sections with
      | s0 :: rest => s0 :: (rest.enum.map fun p => natToString (p.1 + 1) ++ ". " ++ p.2)
      | [] => []
    else sections
  let chosen := if 1 < sections.length then sections.drop 1 else [text]
  chosen.map fun s =>
    let ls := splitNl (pyStrip s)
    { title := pyStrip (ls.headD ""),
      description := pyStrip (joinNl (ls.drop 1)),
      implemented := false }

/-- Aggregate result of one directory run: the results dict built by
analyze_directory (lines 72-81 and 173-205).  The wall-clock fields
execution_time and average_time_per_file are timing floats and are omitted;
analysis_timestamp is carried from the environment. -/
structure ProjectResults where
  project_name : String
  analysis_timestamp : String
  files_analyzed : Nat
  total_issues : Nat
  file_analyses : List (String × FileAnalysisR)
  project_level_analysis : Option String
  growth_recommendations : List RecR
  security_overview : Option String
  total_tokens : Nat
  failed_files : Nat
deriving DecidableEq, Repr

/-- One entry of the persisted analysis store (analysis_store.py lines
78-85). -/
structure StoreEntry where
  id : String
  project : String
  timestamp : String
  issue_count : Nat
  file_count : Nat
  results : ProjectResults
deriving DecidableEq, Repr

/-- AnalysisStore.store_analysis (analysis_store.py lines 57-97).  The
time.time and strftime outcomes are the now/ts parameters; returns the new
in-memory entry list (which _save_store then persists) and the generated
analysis id. -/
def store_analysis (store : List StoreEntry) (project_name : String)
    (results : ProjectResults) (ts : String) (now : Nat) (overwrite : Bool) :
    List StoreEntry × String :=
  let analysis_id := project_name ++ "_" ++ natToString now
  let entry : StoreEntry :=
    { id := analysis_id, project := project_name, timestamp := ts,
      issue_count := results.total_issues, file_count := results.files_analyzed,
      results := results }
  let store' := if overwrite then store.filter (fun a => a.project != project_name) else store
  (store' ++ [entry], analysis_id)

/-- Tag for one backend LLM call issued during a run. -/
inductive BackendCall where
  | analyze (file_path : String) (analysis_type : String)
  | projectAnalysis
  | growthRecommendations
  | securityOverview
deriving DecidableEq, Repr

def isAnalyzeCall : BackendCall → Bool
  | .analyze _ _ => true
  | _ => false

/-- Environment of one orchestrator run: outcomes of every I/O and LLM
interaction.  Functions model the corresponding collaborator calls;
`.error` values model raised exceptions.  The prompt strings passed to the
backend are out of scope (spec section 1), so the three aggregate-report
outcomes are oracles for this run. -/
structure OrchestratorEnv where
  sizeBytes : String → Nat
  isBinary : String → Bool
  readFile : String → Except String (Option String × Option String)
  statMtime : String → Except String Nat
  fileInfo : String → Option FileInfoR
  analyzeCode : String → String → String → String → Except String (String × Nat)
  genProjectAnalysis : Except String (String × Nat)
  genGrowthRecommendations : Except String (String × Nat)
  genSecurityOverview : Except String (String × Nat)
  context0 : List (String × FileAnalysisR)
  store0 : List StoreEntry
  timestampStr : String
  now : Nat

/-- dict.get on an association list keyed by file path. -/
def lookupA (m : List (String × α)) (k : String) : Option α :=
  (m.find? (fun p => p.1 == k)).map Prod.snd

/-- dict assignment on an association list (overwrite in place, else append). -/
def updateA (m : List (String × α)) (k : String) (v : α) : List (String × α) :=
  if m.any (fun p => p.1 == k) then m.map (fun p => if p.1 == k then (k, v) else p)
  else m ++ [(k, v)]

/-- getattr(config, MAX_LINES_PER_FILE, 1000): config.py defines no
MAX_LINES_PER_FILE, so the default applies. -/
def maxLinesPerFile : Nat := 1000

/-- Truncation of overlong files (code_analyzer.py lines 132-137). -/
def truncateContent (content : String) : String :=
  let ls := pySplitlines content
  if decide (maxLinesPerFile < ls.length) then
    joinNl (ls.take maxLinesPerFile) ++
      "\n\n# ... (file truncated, showing only the first 1000 lines) ..."
  else content

/-- The backend calls issued by one _analyze_file invocation: the standard
pass always, the security and performance passes when their guards hold. -/
def analyzeFileCallList (file_path : String) (secOk perfOk : Bool) : List BackendCall :=
  [.analyze file_path "standard"] ++
  (if secOk then [.analyze file_path "security"] else []) ++
  (if perfOk then [.analyze file_path "performance"] else [])

/-- CodeAnalyzer._analyze_file (code_analyzer.py lines 268-355): standard
pass always; security pass only when the standard result is non-empty, not an
error, and the file has more than 20 lines; performance pass likewise with
more than 50 lines.  A raised exception in the standard pass degrades to an
error-prefixed result with zero tokens; in the other passes it leaves that
analysis as None.  Returns the analysis record and the backend calls
issued. -/
def analyze_file (env : OrchestratorEnv) (file_path content language : String) :
    FileAnalysisR × List BackendCall :=
  let file_info := env.fileInfo file_path
  let standardRes :=
    match env.analyzeCode content language file_path "standard" with
    | .ok r => r
    | .error e => ("Error during analysis: " ++ e, 0)
  let analysis_result := standardRes.1
  let nLines := (pySplitlines content).length
  let passGuard := (analysis_result != "") && !pyStartsWith analysis_result "Error"
  let secOk := passGuard && decide (20 < nLines)
  let secRes : Option String × Nat :=
    if secOk then
      match env.analyzeCode content language file_path "security" with
      | .ok (r, tk) => (some r, standardRes.2 + tk)
      | .error _ => (none, standardRes.2)
    else (none, standardRes.2)
  let perfOk := passGuard && decide (50 < nLines)
  let perfRes : Option String × Nat :=
    if perfOk then
      match env.analyzeCode content language file_path "performance" with
      | .ok (r, tk) => (some r, secRes.2 + tk)
      | .error _ => (none, secRes.2)
    else (none, secRes.2)
  let calls : List BackendCall := analyzeFileCallList file_path secOk perfOk
  let issues := extract_issues analysis_result
  let security_issues :=
    match secRes.1 with
    | some s => if s = "" then [] else extract_issues s
    | none => []
  let performance_issues :=
    match perfRes.1 with
    | some s => if s = "" then [] else extract_issues s
    | none => []
  let all_issues := issues ++ security_issues ++ performance_issues
  ({ file_path := file_path, language := language, file_info := file_info,
     issues := all_issues, issue_count := all_issues.length,
     standard_analysis := analysis_result, security_analysis := secRes.1,
     performance_analysis := perfRes.1, tokens_used := perfRes.2 }, calls)

/-- Mutable loop state of analyze_directory: the statistics counters, the
accumulating results dict, the project context, and the call trace. -/
structure RunState where
  issue_count : Nat
  files_analyzed : Nat
  failed_files : Nat
  total_tokens : Nat
  file_analyses : List (String × FileAnalysisR)
  context : List (String × FileAnalysisR)
  calls : List BackendCall
deriving Repr

def markFailed (st : RunState) : RunState := { st with failed_files := st.failed_files + 1 }

/-- config.py defines no MAX_FILE_SIZE_MB, so the default 5 MB branch of
code_analyzer.py line 102 applies; the float comparison size/1MB > 5 is the
byte comparison size > 5 * 1024 * 1024. -/
def maxFileSizeBytes : Nat := 5 * 1024 * 1024

/-- Per-file loop body of CodeAnalyzer.analyze_directory (lines 86-171):
size check, binary check, read (a raised exception or a missing
content/language each count the file failed and continue), truncation,
cache check via is_file_modified, then reuse of the cached analysis or a
fresh _analyze_file whose result is written back to the context. -/
def processFile (env : OrchestratorEnv) (st : RunState) (file_path : String) : RunState :=
  if decide (maxFileSizeBytes < env.sizeBytes file_path) then markFailed st
  else if env.isBinary file_path then markFailed st
  else
    match env.readFile file_path with
    | .error _ => markFailed st
    | .ok (contentOpt, languageOpt) =>
      match contentOpt with
      | none => markFailed st
      | some content =>
        if content = "" then markFailed st
        else
          match languageOpt with
          | none => markFailed st
          | some language =>
            if language = "" then markFailed st
            else
              match lookupA st.context file_path,
                is_file_modified (env.statMtime file_path) (lookupA st.context file_path) with
              | some ex, false =>
                { st with
                  issue_count := st.issue_count + ex.issues.length,
                  files_analyzed := st.files_analyzed + 1,
                  file_analyses := updateA st.file_analyses file_path ex }
              | _, _ =>
                { st with
                  issue_count := st.issue_count +
                    (analyze_file env file_path (truncateContent content) language).1.issues.length,
                  files_analyzed := st.files_analyzed + 1,
                  total_tokens := st.total_tokens +
                    (analyze_file env file_path (truncateContent content) language).1.tokens_used,
                  context := updateA st.context file_path
                    (analyze_file env file_path (truncateContent content) language).1,
                  file_analyses := updateA st.file_analyses file_path
                    (analyze_file env file_path (truncateContent content) language).1,
                  calls := st.calls ++
                    (analyze_file env file_path (truncateContent content) language).2 }

/-- CodeAnalyzer._generate_project_analysis (lines 488-539): the LLM call's
outcome is the env oracle; a raised exception is caught and becomes an
error-prefixed result with no tokens counted. -/
def generate_project_analysis (env : OrchestratorEnv) : String × Nat :=
  match env.genProjectAnalysis with
  | .ok (r, tk) => (r, tk)
  | .error e => ("Error generating project analysis: " ++ e, 0)

/-- CodeAnalyzer._generate_growth_recommendations (lines 541-593). -/
def generate_growth_recommendations (env : OrchestratorEnv) : List RecR × Nat :=
  match env.genGrowthRecommendations with
  | .ok (r, tk) => (parseGrowthRecommendations r, tk)
  | .error _ => ([], 0)

/-- CodeAnalyzer._generate_security_overview (lines 595-645). -/
def generate_security_overview (env : OrchestratorEnv) : String × Nat :=
  match env.genSecurityOverview with
  | .ok (r, tk) => (r, tk)
  | .error e => ("Error generating security overview: " ++ e, 0)

def initialState (env : OrchestratorEnv) : RunState :=
  { issue_count := 0, files_analyzed := 0, failed_files := 0, total_tokens := 0,
    file_analyses := [], context := env.context0, calls := [] }

/-- Result of one full run: the returned results dict, the trace of backend
calls, and the analysis store after the final store_analysis. -/
structure RunOutcome where
  results : ProjectResults
  calls : List BackendCall
  store : List StoreEntry
deriving Repr

/-- CodeAnalyzer.analyze_directory (code_analyzer.py lines 41-222): process
every file, then, only if at least one file was analyzed, issue the three
aggregate backend calls; otherwise install the fixed placeholders; finally
persist the run through store_analysis. -/
def analyze_directory (env : OrchestratorEnv) (project_name : String)
    (files : List String) : Except String RunOutcome :=
  if files.isEmpty then .error "No files to analyze"
  else
    let st := files.foldl (processFile env) (initialState env)
    let agg :
        Option String × List RecR × Option String × Nat × List BackendCall :=
      if 0 < st.files_analyzed then
        let pa := generate_project_analysis env
        let gr := generate_growth_recommendations env
        let sv := generate_security_overview env
        (some pa.1, gr.1, some sv.1, st.total_tokens + pa.2 + gr.2 + sv.2,
         st.calls ++ [.projectAnalysis, .growthRecommendations, .securityOverview])
      else
        (some "No files were successfully analyzed.", [],
         some "No files were successfully analyzed.", st.total_tokens, st.calls)
    let results : ProjectResults :=
      { project_name := project_name, analysis_timestamp := env.timestampStr,
        files_analyzed := st.files_analyzed, total_issues := st.issue_count,
        file_analyses := st.file_analyses, project_level_analysis := agg.1,
        growth_recommendations := agg.2.1, security_overview := agg.2.2.1,
        total_tokens := agg.2.2.2.1, failed_files := st.failed_files }
    let stored := store_analysis env.store0 project_name results env.timestampStr env.now true
    .ok { results := results, calls := agg.2.2.2.2, store := stored.1 }

/-! ### Concrete sample values used by witnesses and counterexamples -/

/-- Boolean shape of the positive-sentiment filter: a description survives it
unless it contains a positive indicator without any negative indicator. -/
def descOk (d : String) : Bool :=
  !(hasPositive (pyLower d) && !hasNegative (pyLower d))

def praiseLine : String := "This function is clean and well documented."

def praiseLineWithContrast : String :=
  "This function is clean and well documented, but error handling is missing."

/-- 57 characters: 17 non-whitespace followed by 40 spaces, with no
extractable structure; its stripped length is only 17. -/
def padGapText : String :=
  "no structure here" ++ String.mk (List.replicate 40 ' ')

/-- A long unstructured text that starts with the Error sentinel prefix. -/
def errorPrefixedText : String :=
  "Error during analysis because the backend connection failed repeatedly with no useful output"

/-- A long unstructured analysis text with no sentinel prefix. -/
def longUnstructuredText : String :=
  "the implementation rereads the configuration file on every request which wastes work"

def sampleFileInfo : FileInfoR := { last_modified := some 5 }

def sampleFileAnalysis : FileAnalysisR :=
  { file_path := "a.py", language := "python", file_info := some sampleFileInfo,
    issues := [], issue_count := 0, standard_analysis := "ok",
    security_analysis := none, performance_analysis := none, tokens_used := 0 }

def sampleResults (n : Nat) : ProjectResults :=
  { project_name := "proj", analysis_timestamp := "ts", files_analyzed := n,
    total_issues := n, file_analyses := [], project_level_analysis := none,
    growth_recommendations := [], security_overview := none,
    total_tokens := 0, failed_files := 0 }

/-- Concrete environment for the three-file batch scenario: reading b.py
raises, a.py and c.py read fine. -/
def batchEnv : OrchestratorEnv :=
  { sizeBytes := fun _ => 10,
    isBinary := fun _ => false,
    readFile := fun p =>
      if p = "b.py" then .error "boom" else .ok (some "print(1)", some "python"),
    statMtime := fun _ => .ok 7,
    fileInfo := fun _ => some { last_modified := some 7 },
    analyzeCode := fun _ _ _ _ => .ok ("Issue 1: something should be improved here", 7),
    genProjectAnalysis := .ok ("summary", 1),
    genGrowthRecommendations := .ok ("1. add tests", 1),
    genSecurityOverview := .ok ("sec", 1),
    context0 := [],
    store0 := [],
    timestampStr := "2024-01-01 00:00:00",
    now := 100 }

/-- Environment in which the only file is binary, so nothing is analyzed. -/
def zeroEnv : OrchestratorEnv := { batchEnv with isBinary := fun _ => true }

def zeroResults : ProjectResults :=
  { project_name := "proj", analysis_timestamp := "2024-01-01 00:00:00",
    files_analyzed := 0, total_issues := 0, file_analyses := [],
    project_level_analysis := some "No files were successfully analyzed.",
    growth_recommendations := [],
    security_overview := some "No files were successfully analyzed.",
    total_tokens := 0, failed_files := 1 }

def zeroStoreEntry : StoreEntry :=
  { id := "proj_100", project := "proj", timestamp := "2024-01-01 00:00:00",
    issue_count := 0, file_count := 0, results := zeroResults }

def zeroRunOutcome : RunOutcome :=
  { results := zeroResults, calls := [], store := [zeroStoreEntry] }

/-! ## Theorems -/

/-! ### Helper lemmas about the extractor folds -/

theorem dedupAppend_distinct (l : List IssueR) (i : IssueR)
    (h : l.Pairwise (fun a b => a.description ≠ b.description)) :
    (dedupAppend l i).Pairwise (fun a b => a.description ≠ b.description) := by
  unfold dedupAppend
  split
  · exact h
  · rename_i hany
    rw [List.pairwise_append]
    refine ⟨h, List.pairwise_singleton _ _, ?_⟩
    intro a ha b hb
    simp only [List.mem_singleton] at hb
    subst hb
    intro heq
    exact hany (List.any_eq_true.mpr ⟨a, ha, by simp [heq]⟩)

theorem mem_dedupAppend (l : List IssueR) (i j : IssueR)
    (h : j ∈ dedupAppend l i) : j ∈ l ∨ j = i := by
  unfold dedupAppend at h
  split at h
  · exact Or.inl h
  · simp only [List.mem_append, List.mem_singleton] at h
    exact h

theorem foldl_stageAdd_distinct (cs : List Cand) (l : List IssueR)
    (h : l.Pairwise (fun a b => a.description ≠ b.description)) :
    (cs.foldl stageAdd l).Pairwise (fun a b => a.description ≠ b.description) := by
  induction cs generalizing l with
  | nil => exact h
  | cons c cs ih =>
    apply ih
    unfold stageAdd
    split
    · exact h
    · split
      · exact h
      · exact dedupAppend_distinct _ _ h

theorem foldl_looseAdd_distinct (ls : List String) (l : List IssueR)
    (h : l.Pairwise (fun a b => a.description ≠ b.description)) :
    (ls.foldl looseAdd l).Pairwise (fun a b => a.description ≠ b.description) := by
  induction ls generalizing l with
  | nil => exact h
  | cons s ls ih =>
    apply ih
    unfold looseAdd
    split
    · split
      · exact h
      · exact dedupAppend_distinct _ _ h
    · exact h

theorem mem_foldl_stageAdd (cs : List Cand) (l : List IssueR) (j : IssueR)
    (h : j ∈ cs.foldl stageAdd l) : j ∈ l ∨ descOk j.description = true := by
  induction cs generalizing l with
  | nil => exact Or.inl h
  | cons c cs ih =>
    rcases ih _ h with h' | h'
    · unfold stageAdd at h'
      split at h'
      · exact Or.inl h'
      · split at h'
        · exact Or.inl h'
        · rcases mem_dedupAppend _ _ _ h' with h'' | h''
          · exact Or.inl h''
          · right
            subst h''
            rename_i hpos
            simp only [Bool.not_eq_true] at hpos
            simp [descOk, hpos]
    · exact Or.inr h'

theorem mem_foldl_looseAdd (ls : List String) (l : List IssueR) (j : IssueR)
    (h : j ∈ ls.foldl looseAdd l) : j ∈ l ∨ descOk j.description = true := by
  induction ls generalizing l with
  | nil => exact Or.inl h
  | cons s ls ih =>
    rcases ih _ h with h' | h'
    · unfold looseAdd at h'
      split at h'
      · split at h'
        · exact Or.inl h'
        · rcases mem_dedupAppend _ _ _ h' with h'' | h''
          · exact Or.inl h''
          · right
            subst h''
            rename_i hpos
            simp only [Bool.not_eq_true] at hpos
            simp [descOk, hpos]
      · exact Or.inl h'
    · exact Or.inr h'

/-- Every issue returned by the extractor either survived the positive filter
or was synthesized by the forced-minimum stage. -/
theorem extract_issues_desc_shape (t : String) (j : IssueR)
    (h : j ∈ extract_issues t) :
    descOk j.description = true ∨
    (∃ l, j.description = "Potential improvement: " ++ l) ∨
    j.description = genericIssueDescription := by
  unfold extract_issues at h
  split at h
  · cases h
  · split at h
    · cases h
    · simp only at h
      split at h
      · unfold forcedStage at h
        split at h <;> simp only [List.mem_singleton] at h <;> subst h
        · exact Or.inr (Or.inl ⟨_, rfl⟩)
        · exact Or.inr (Or.inr rfl)
      · unfold issuesBeforeForced at h
        simp only at h
        split at h
        · rcases mem_foldl_looseAdd _ _ _ h with h' | h'
          · cases h'
          · exact Or.inl h'
        · rcases mem_foldl_stageAdd _ _ _ h with h' | h'
          · cases h'
          · exact Or.inl h'

/-! ### Claim theorems -/

/-- C3: for every input text, the list returned by a single call to
extract_issues contains no two issue records with equal description strings
(exact, case-sensitive match). -/
theorem c3_dedup_invariant (t : String) :
    (extract_issues t).Pairwise (fun a b => a.description ≠ b.description) := by
  unfold extract_issues
  split
  · exact List.Pairwise.nil
  · split
    · exact List.Pairwise.nil
    · simp only
      split
      · unfold forcedStage
        split
        · exact List.pairwise_singleton _ _
        · exact List.pairwise_singleton _ _
      · unfold issuesBeforeForced
        simp only
        split
        · exact foldl_looseAdd_distinct _ _ List.Pairwise.nil
        · exact foldl_stageAdd_distinct _ _ List.Pairwise.nil

/-- C4 counterexample: the claim as stated is false.  padGapText has 57
characters (more than 50), is non-empty, and contains no structure matched by
the earlier cascade stages, yet extract_issues returns no issue, because the
forced-minimum guard measures the stripped text (17 characters here).
Likewise errorPrefixedText is longer than 50 characters with no extractable
structure, but the extractor returns nothing because of the Error-sentinel
early return. -/
theorem c4_minimum_floor_counterexample :
    (50 < padGapText.length ∧ padGapText ≠ "" ∧
      issuesBeforeForced padGapText = [] ∧ extract_issues padGapText = []) ∧
    (50 < errorPrefixedText.length ∧ errorPrefixedText ≠ "" ∧
      issuesBeforeForced errorPrefixedText = [] ∧
      extract_issues errorPrefixedText = []) := by
  decide

/-- C4 (amended): for every analysis text that does not start with the
sentinel prefix Error, whose whitespace-stripped form is longer than 50
characters, and in which the earlier cascade stages match nothing,
extract_issues returns at least one issue. -/
theorem c4_minimum_floor (t : String)
    (hErr : ¬ pyStartsWith t "Error" = true)
    (hlen : 50 < (pyStrip t).length)
    (hpre : issuesBeforeForced t = []) :
    1 ≤ (extract_issues t).length := by
  have ht : ¬ t = "" := by
    intro h
    subst h
    simp [pyStrip, pyStripL] at hlen
  unfold extract_issues
  rw [if_neg ht, if_neg hErr]
  simp only [hpre, List.isEmpty_nil, Bool.true_and]
  rw [if_pos (by simpa using hlen)]
  unfold forcedStage
  split <;> simp

/-- C4 witness: the amended theorem applied at a concrete long unstructured
text. -/
theorem c4_minimum_floor_check : 1 ≤ (extract_issues longUnstructuredText).length :=
  c4_minimum_floor longUnstructuredText (by decide) (by decide) (by decide)

/-- C9: a line consisting solely of praise with no contrast keyword — the
spec's example sentence — is never emitted as an issue: on no input does it
occur as the description of any issue returned by extract_issues (the
positive-sentiment filter drops it at the regex and loose stages, and the
forced-minimum stage only emits descriptions carrying the Potential
improvement prefix or the generic fallback, never the line itself).  The
same sentence extended with a contrast clause is emitted as an issue: fed
through the bullet pattern of the regex stage it survives the filter (the
contrast keyword but) and becomes the description of the one returned
issue, while the bare praise sentence in the same bullet position is
dropped by the filter and yields no issue at all. -/
theorem c9_positive_filter :
    (∀ t : String, ∀ j ∈ extract_issues t, j.description ≠ praiseLine) ∧
    extract_issues ("- " ++ praiseLineWithContrast) =
      [⟨none, praiseLineWithContrast, false⟩] ∧
    extract_issues ("- " ++ praiseLine) = [] := by
  refine ⟨?_, by decide, by decide⟩
  intro t j hj hcontra
  rcases extract_issues_desc_shape t j hj with h | ⟨l, h⟩ | h
  · rw [hcontra] at h
    revert h
    decide
  · rw [hcontra] at h
    have hp : ("Potential improvement: ").data <+: praiseLine.data := by
      rw [h, String.data_append]
      exact List.prefix_append _ _
    revert hp
    decide
  · rw [hcontra] at h
    revert h
    decide

/-- C9 witness: the universal part applied at the concrete bullet text and
the issue it emits. -/
theorem c9_positive_filter_check :
    IssueR.description ⟨none, praiseLineWithContrast, false⟩ ≠ praiseLine :=
  c9_positive_filter.1 ("- " ++ praiseLineWithContrast) _ (by decide)

/-- C5 counterexample: classify on the title Minor formatting inconsistency
yields type general, not maintainability — formatting is a severity keyword
only, and no type keyword occurs in the title. -/
theorem c5_classification_counterexample :
    classify "Minor formatting inconsistency" = ("minor", "general") ∧
    (("minor" : String), ("general" : String)) ≠
      (("minor" : String), ("maintainability" : String)) := by
  decide

/-- C5 (amended): classify on Critical SQL injection vulnerability yields
(critical, security); classify on Minor formatting inconsistency yields
severity minor and type general (no type keyword matches the title). -/
theorem c5_classification :
    classify "Critical SQL injection vulnerability" = ("critical", "security") ∧
    classify "Minor formatting inconsistency" = ("minor", "general") := by
  decide

/-- C6: a cached analysis recording modification time T is reported modified
for a file whose current modification time is strictly greater than T, not
modified at exactly T, and a file with no cached entry is always reported
modified. -/
theorem c6_cache_invalidation (T : Nat) (a : FileAnalysisR)
    (hT : recordedLastModified a = T) (statRes : Except String Nat) :
    is_file_modified (.ok (T + 1)) (some a) = true ∧
    is_file_modified (.ok T) (some a) = false ∧
    is_file_modified statRes none = true := by
  refine ⟨?_, ?_, rfl⟩ <;> simp [is_file_modified, hT]

/-- C6 witness at a concrete cached record with recorded mtime 5. -/
theorem c6_cache_invalidation_check :
    is_file_modified (.ok (5 + 1)) (some sampleFileAnalysis) = true ∧
    is_file_modified (.ok 5) (some sampleFileAnalysis) = false ∧
    is_file_modified (.ok 0) none = true :=
  c6_cache_invalidation 5 sampleFileAnalysis (by decide) (.ok 0)

/-- C1: the transport client EnhancedLLMService._call_llm configured with
max_retries = 3 and a transport failing on every attempt performs exactly 4
attempts (1 initial + 3 retries), then returns the Error-prefixed sentinel
text with 0 tokens; the failure is the returned value, no exception
escapes. -/
theorem c1_retry_bound (e : String) :
    call_llm (fun _ => TransportOutcome.err e) 3 = (("Error: " ++ e, 0), 4) := by
  unfold call_llm
  rw [call_llm_go, call_llm_go, call_llm_go, call_llm_go]
  simp

/-- The superseded narrower variant LLMService._call_ollama performs only
max_retries total attempts: with max_retries = 3 and a transport that times
out on every attempt it gives up after 3 attempts with its sentinel. -/
theorem call_ollama_attempt_count :
    call_ollama (fun _ => OllamaOutcome.timeout) 3 =
      some (("Request timed out after 3 attempts. Please try again later.", 0), 3) := by
  unfold call_ollama
  rw [call_ollama_go, call_ollama_go, call_ollama_go]
  simp
  decide

/-- C10: validate_code accepts any code in any language other than python,
javascript and typescript without performing any check; for javascript and
typescript code with unbalanced delimiters it returns the falsy non-boolean
None rather than False. -/
theorem c10_validate_code :
    (∀ (pythonParses : String → Bool) (code language : String),
      language ≠ "python" → language ≠ "javascript" → language ≠ "typescript" →
      validate_code pythonParses code language = some true) ∧
    (∀ (pythonParses : String → Bool) (code : String),
      check_balanced_delimiters code = false →
      validate_code pythonParses code "javascript" = none ∧
      validate_code pythonParses code "typescript" = none) := by
  constructor
  · intro pythonParses code language h1 h2 h3
    simp [validate_code, h1, h2, h3]
  · intro pythonParses code h
    constructor <;> simp [validate_code, h]

/-- C10 witness: malformed go code is accepted; unbalanced javascript yields
None. -/
theorem c10_validate_code_check :
    validate_code (fun _ => false) "][" "go" = some true ∧
    validate_code (fun _ => false) "(((" "javascript" = none :=
  ⟨c10_validate_code.1 (fun _ => false) "][" "go" (by decide) (by decide) (by decide),
   (c10_validate_code.2 (fun _ => false) "(((" (by decide)).1⟩

theorem filter_project_ne_idem (l : List StoreEntry) (p : String) :
    (l.filter (fun e => e.project != p)).filter (fun e => e.project != p) =
      l.filter (fun e => e.project != p) := by
  induction l with
  | nil => rfl
  | cons e l ih =>
    by_cases h : e.project = p <;> simp [List.filter_cons, h, ih]

theorem filter_project_ne_then_eq (l : List StoreEntry) (p : String) :
    (l.filter (fun e => e.project != p)).filter (fun e => e.project == p) = [] := by
  induction l with
  | nil => rfl
  | cons e l ih =>
    by_cases h : e.project = p <;> simp [List.filter_cons, h, ih]

/-- C8 counterexample: store_analysis is called with the default
overwrite = True, which first deletes every existing entry of the project;
after two successive stores for the same project only one entry remains and
the first store's results are gone, so no 10-entry retention per project
exists. -/
theorem c8_retention_counterexample :
    ((store_analysis (store_analysis [] "proj" (sampleResults 1) "t1" 1 true).1
        "proj" (sampleResults 2) "t2" 2 true).1.length = 1) ∧
    ((store_analysis (store_analysis [] "proj" (sampleResults 1) "t1" 1 true).1
        "proj" (sampleResults 2) "t2" 2 true).1.all
      (fun e => e.results != sampleResults 1) = true) := by
  decide

/-- C8 (amended): every write with the default overwrite = True appends the
new timestamped entry after removing all prior entries of that project, so at
most one entry per project is retained: after two successive stores for the
same project, the project's entries are exactly the second entry, while
entries of other projects are untouched. -/
theorem c8_history_overwrite (store : List StoreEntry) (p : String)
    (r1 r2 : ProjectResults) (ts1 ts2 : String) (n1 n2 : Nat) :
    ((store_analysis (store_analysis store p r1 ts1 n1 true).1 p r2 ts2 n2 true).1.filter
        (fun e => e.project == p)) =
      [{ id := p ++ "_" ++ natToString n2, project := p, timestamp := ts2,
         issue_count := r2.total_issues, file_count := r2.files_analyzed, results := r2 }] ∧
    ((store_analysis (store_analysis store p r1 ts1 n1 true).1 p r2 ts2 n2 true).1.filter
        (fun e => e.project != p)) = store.filter (fun e => e.project != p) := by
  constructor
  · simp [store_analysis, List.filter_append, filter_project_ne_then_eq]
  · simp [store_analysis, List.filter_append, filter_project_ne_idem]

/-! ### Helper lemmas about the orchestrator -/

theorem mem_analyzeFileCallList (p : String) (b1 b2 : Bool) (tag : BackendCall)
    (h : tag ∈ analyzeFileCallList p b1 b2) : isAnalyzeCall tag = true := by
  unfold analyzeFileCallList at h
  cases b1 <;> cases b2
  · simp at h
    subst h
    rfl
  · simp at h
    rcases h with rfl | rfl <;> rfl
  · simp at h
    rcases h with rfl | rfl <;> rfl
  · simp at h
    rcases h with rfl | rfl | rfl <;> rfl

theorem analyze_file_calls (env : OrchestratorEnv) (p c l : String) (tag : BackendCall)
    (h : tag ∈ (analyze_file env p c l).2) : isAnalyzeCall tag = true :=
  mem_analyzeFileCallList p _ _ tag h

theorem processFile_calls (env : OrchestratorEnv) (st : RunState) (p : String)
    (tag : BackendCall) (h : tag ∈ (processFile env st p).calls) :
    tag ∈ st.calls ∨ isAnalyzeCall tag = true := by
  unfold processFile at h
  split at h
  · exact Or.inl h
  · split at h
    · exact Or.inl h
    · split at h
      · exact Or.inl h
      · split at h
        · exact Or.inl h
        · split at h
          · exact Or.inl h
          · split at h
            · exact Or.inl h
            · split at h
              · exact Or.inl h
              · split at h
                · exact Or.inl h
                · simp only [List.mem_append] at h
                  rcases h with h | h
                  · exact Or.inl h
                  · exact Or.inr (analyze_file_calls env p _ _ tag h)

theorem foldl_processFile_calls (env : OrchestratorEnv) (files : List String)
    (st : RunState) (tag : BackendCall)
    (h : tag ∈ (files.foldl (processFile env) st).calls) :
    tag ∈ st.calls ∨ isAnalyzeCall tag = true := by
  induction files generalizing st with
  | nil => exact Or.inl h
  | cons f fs ih =>
    rcases ih _ h with h' | h'
    · exact processFile_calls env st f tag h'
    · exact Or.inr h'

theorem processFile_read_error (env : OrchestratorEnv) (st : RunState) (p e : String)
    (hs : env.sizeBytes p ≤ maxFileSizeBytes) (hb : env.isBinary p = false)
    (hr : env.readFile p = .error e) :
    processFile env st p = markFailed st := by
  simp [processFile, hr, hb, Nat.not_lt.mpr hs]

theorem processFile_fresh (env : OrchestratorEnv) (st : RunState) (p c l : String)
    (hs : env.sizeBytes p ≤ maxFileSizeBytes) (hb : env.isBinary p = false)
    (hr : env.readFile p = .ok (some c, some l))
    (hc : c ≠ "") (hl : l ≠ "")
    (hx : lookupA st.context p = none) :
    processFile env st p =
      { st with
        issue_count := st.issue_count +
          (analyze_file env p (truncateContent c) l).1.issues.length,
        files_analyzed := st.files_analyzed + 1,
        total_tokens := st.total_tokens +
          (analyze_file env p (truncateContent c) l).1.tokens_used,
        context := updateA st.context p (analyze_file env p (truncateContent c) l).1,
        file_analyses :=
          updateA st.file_analyses p (analyze_file env p (truncateContent c) l).1,
        calls := st.calls ++ (analyze_file env p (truncateContent c) l).2 } := by
  simp [processFile, hr, hb, hc, hl, hx, Nat.not_lt.mpr hs]

/-- C7: whenever a run analyzed zero files, the returned results carry the
fixed "No files were successfully analyzed." placeholders for the
project-level analysis and the security overview, an empty recommendation
list, and none of the three aggregate-report backend calls was issued. -/
theorem c7_aggregate_suppression (env : OrchestratorEnv) (project_name : String)
    (files : List String) (out : RunOutcome)
    (hrun : analyze_directory env project_name files = .ok out)
    (hzero : out.results.files_analyzed = 0) :
    out.results.project_level_analysis = some "No files were successfully analyzed." ∧
    out.results.growth_recommendations = [] ∧
    out.results.security_overview = some "No files were successfully analyzed." ∧
    BackendCall.projectAnalysis ∉ out.calls ∧
    BackendCall.growthRecommendations ∉ out.calls ∧
    BackendCall.securityOverview ∉ out.calls := by
  unfold analyze_directory at hrun
  split at hrun
  · cases hrun
  · simp only [Except.ok.injEq] at hrun
    subst hrun
    have hfa : (files.foldl (processFile env) (initialState env)).files_analyzed = 0 := by
      simpa using hzero
    have hnocall : ∀ tag : BackendCall, isAnalyzeCall tag = false →
        tag ∉ (files.foldl (processFile env) (initialState env)).calls := by
      intro tag htag hmem
      rcases foldl_processFile_calls env files _ tag hmem with h' | h'
      · simp [initialState] at h'
      · rw [htag] at h'
        cases h'
    refine ⟨?_, ?_, ?_, ?_, ?_, ?_⟩
    · simp [hfa]
    · simp [hfa]
    · simp [hfa]
    · simpa [hfa] using hnocall BackendCall.projectAnalysis rfl
    · simpa [hfa] using hnocall BackendCall.growthRecommendations rfl
    · simpa [hfa] using hnocall BackendCall.securityOverview rfl

/-- C7 witness: a run over one binary file analyzes nothing; the theorem
applied to that concrete run. -/
theorem c7_aggregate_suppression_check :
    zeroRunOutcome.results.project_level_analysis =
      some "No files were successfully analyzed." ∧
    zeroRunOutcome.results.growth_recommendations = [] ∧
    zeroRunOutcome.results.security_overview =
      some "No files were successfully analyzed." ∧
    BackendCall.projectAnalysis ∉ zeroRunOutcome.calls ∧
    BackendCall.growthRecommendations ∉ zeroRunOutcome.calls ∧
    BackendCall.securityOverview ∉ zeroRunOutcome.calls :=
  c7_aggregate_suppression zeroEnv "proj" ["a.py"] zeroRunOutcome (by rfl) (by rfl)

/-- C2: in a batch of three files where reading the second file raises and
the other two read and analyze, the run completes with files_analyzed = 2 and
failed_files = 1, and the results map holds the analyses (with their issues)
of files 1 and 3. -/
theorem c2_batch_resilience (env : OrchestratorEnv)
    (project_name p1 p2 p3 c1 c3 l1 l3 e : String)
    (h13 : p1 ≠ p3)
    (hs1 : env.sizeBytes p1 ≤ maxFileSizeBytes) (hb1 : env.isBinary p1 = false)
    (hr1 : env.readFile p1 = .ok (some c1, some l1)) (hc1 : c1 ≠ "") (hl1 : l1 ≠ "")
    (hs2 : env.sizeBytes p2 ≤ maxFileSizeBytes) (hb2 : env.isBinary p2 = false)
    (hr2 : env.readFile p2 = .error e)
    (hs3 : env.sizeBytes p3 ≤ maxFileSizeBytes) (hb3 : env.isBinary p3 = false)
    (hr3 : env.readFile p3 = .ok (some c3, some l3)) (hc3 : c3 ≠ "") (hl3 : l3 ≠ "")
    (hctx : env.context0 = []) :
    ∃ out, analyze_directory env project_name [p1, p2, p3] = .ok out ∧
      out.results.files_analyzed = 2 ∧
      out.results.failed_files = 1 ∧
      lookupA out.results.file_analyses p1 =
        some (analyze_file env p1 (truncateContent c1) l1).1 ∧
      lookupA out.results.file_analyses p3 =
        some (analyze_file env p3 (truncateContent c3) l3).1 := by
  have hbeq : (p1 == p3) = false := by
    cases hb' : p1 == p3
    · rfl
    · exact absurd (eq_of_beq hb') h13
  have e1 := processFile_fresh env (initialState env) p1 c1 l1 hs1 hb1 hr1 hc1 hl1
    (by simp [initialState, hctx, lookupA])
  have hx3 : lookupA (markFailed (processFile env (initialState env) p1)).context p3 = none := by
    rw [markFailed, e1]
    simp [initialState, hctx, updateA, lookupA, List.find?, hbeq]
  have e3 := processFile_fresh env
    (markFailed (processFile env (initialState env) p1)) p3 c3 l3 hs3 hb3 hr3 hc3 hl3 hx3
  have hst : List.foldl (processFile env) (initialState env) [p1, p2, p3] =
      processFile env (markFailed (processFile env (initialState env) p1)) p3 := by
    simp only [List.foldl_cons, List.foldl_nil]
    rw [processFile_read_error env _ p2 e hs2 hb2 hr2]
  refine ⟨_, rfl, ?_, ?_, ?_, ?_⟩
  · show (List.foldl (processFile env) (initialState env) [p1, p2, p3]).files_analyzed = 2
    rw [hst, e3]
    simp only [markFailed]
    rw [e1]
    simp [initialState]
  · show (List.foldl (processFile env) (initialState env) [p1, p2, p3]).failed_files = 1
    rw [hst, e3]
    simp only [markFailed]
    rw [e1]
    simp [initialState]
  · show lookupA
        (List.foldl (processFile env) (initialState env) [p1, p2, p3]).file_analyses p1 =
      some (analyze_file env p1 (truncateContent c1) l1).1
    rw [hst, e3]
    simp only [markFailed]
    rw [e1]
    simp [initialState, updateA, lookupA, List.find?, hbeq]
  · show lookupA
        (List.foldl (processFile env) (initialState env) [p1, p2, p3]).file_analyses p3 =
      some (analyze_file env p3 (truncateContent c3) l3).1
    rw [hst, e3]
    simp only [markFailed]
    rw [e1]
    simp [initialState, updateA, lookupA, List.find?, hbeq]

/-- C2 witness: the theorem applied to a concrete environment in which
reading b.py raises while a.py and c.py analyze. -/
theorem c2_batch_resilience_check :
    ∃ out, analyze_directory batchEnv "proj" ["a.py", "b.py", "c.py"] = .ok out ∧
      out.results.files_analyzed = 2 ∧
      out.results.failed_files = 1 ∧
      lookupA out.results.file_analyses "a.py" =
        some (analyze_file batchEnv "a.py" (truncateContent "print(1)") "python").1 ∧
      lookupA out.results.file_analyses "c.py" =
        some (analyze_file batchEnv "c.py" (truncateContent "print(1)") "python").1 :=
  c2_batch_resilience batchEnv "proj" "a.py" "b.py" "c.py" "print(1)" "print(1)"
    "python" "python" "boom" (by decide) (by decide) (by rfl) (by rfl) (by decide)
    (by decide) (by decide) (by rfl) (by rfl) (by decide) (by rfl) (by rfl)
    (by decide) (by decide) (by rfl)

/-- C1 witness: the retry-bound theorem at a concrete transport error. -/
theorem c1_retry_bound_check :
    call_llm (fun _ => TransportOutcome.err "connection refused") 3 =
      (("Error: " ++ "connection refused", 0), 4) :=
  c1_retry_bound "connection refused"

/-- C3 witness: the dedup invariant at a concrete analysis text. -/
theorem c3_dedup_invariant_check :
    (extract_issues "Issue 1: unchecked user input\nIssue 2: unchecked user input").Pairwise
      (fun a b => a.description ≠ b.description) :=
  c3_dedup_invariant "Issue 1: unchecked user input\nIssue 2: unchecked user input"

/-- C8 witness: the amended overwrite theorem at concrete stores. -/
theorem c8_history_overwrite_check :
    ((store_analysis (store_analysis [] "proj" (sampleResults 1) "t1" 1 true).1
        "proj" (sampleResults 2) "t2" 2 true).1.filter
      (fun e => e.project == "proj")) =
      [{ id := "proj" ++ "_" ++ natToString 2, project := "proj", timestamp := "t2",
         issue_count := (sampleResults 2).total_issues,
         file_count := (sampleResults 2).files_analyzed, results := sampleResults 2 }] ∧
    ((store_analysis (store_analysis [] "proj" (sampleResults 1) "t1" 1 true).1
        "proj" (sampleResults 2) "t2" 2 true).1.filter
      (fun e => e.project != "proj")) =
      List.filter (fun e => e.project != "proj") [] :=
  c8_history_overwrite [] "proj" (sampleResults 1) (sampleResults 2) "t1" "t2" 1 2

end CodeAssistant
